import Mathlib

/-!
Shallow embedding of the TechConnect PayPal webhook server
(source: the express application defining getPayPalAccessToken,
verifyPayPalWebhook, the express.json raw-body capture middleware and the
POST /api/paypal-webhook route).

Network calls (token exchange, signature verification) and the Firestore
update are external effects; their outcomes are passed in explicitly as
values of an environment type, and the JavaScript JSON parser is passed in
as an abstract function.  JavaScript exceptions are modelled with
Except JsError; an async route handler whose body throws outside any
try/catch sends no response, which is modelled by the Outcome.crashed
terminal state.
-/

set_option autoImplicit false

namespace TCWebhook

/-- A JavaScript exception value: either a thrown `new Error(message)` or a
runtime/native exception (TypeError, fetch network failure, JSON.parse
failure, response.json failure). -/
inductive JsError where
  | thrown (message : String)
  | runtime
  deriving DecidableEq

/-- The JSON body of the token endpoint response; `access_token` is `none`
when the field is absent (undefined in JavaScript). -/
structure TokenResponseJson where
  access_token : Option String
  deriving DecidableEq

/-- The JSON body of the verify-webhook-signature endpoint response;
`verification_status` is `none` when the field is absent. -/
structure VerifyResponseJson where
  verification_status : Option String
  deriving DecidableEq

/-- Outcome of one outbound `fetch` call: either the promise rejects
(network error / timeout), or a response arrives with an HTTP status, a
body text, and `json` = the parse of the body (`none` when `.json()`
throws). -/
inductive FetchResult (α : Type) where
  | netError
  | response (status : Nat) (bodyText : String) (json : Option α)
  deriving DecidableEq

/-- `response.ok` in the fetch API: status in the range 200..299. -/
def statusOk (status : Nat) : Bool :=
  200 ≤ status && status < 300

/-- Embedding of `getPayPalAccessToken` (source lines 46..66).  Returns the
result of the try-free async function body (errors propagate to the caller)
together with the list of console.error diagnostic lines it wrote.
On a non-ok response it reads the body text, logs it, and throws an Error
whose message carries the status; on an ok response it returns the
`access_token` field of the parsed JSON body. -/
def getPayPalAccessToken (outcome : FetchResult TokenResponseJson) :
    Except JsError (Option String) × List String :=
  match outcome with
  | FetchResult.netError => (Except.error JsError.runtime, [])
  | FetchResult.response status bodyText json =>
    if statusOk status = false then
      (Except.error (JsError.thrown
          ("Failed to get PayPal access token. Status: " ++ toString status)),
       ["Respuesta de error de PayPal: " ++ bodyText])
    else
      match json with
      | none => (Except.error JsError.runtime, [])
      | some data => (Except.ok data.access_token, [])

/-- The five PayPal transmission headers of an inbound request; each is
`none` when the header is absent (undefined in JavaScript). -/
structure Headers where
  paypal_auth_algo : Option String
  paypal_cert_url : Option String
  paypal_transmission_id : Option String
  paypal_transmission_sig : Option String
  paypal_transmission_time : Option String
  deriving DecidableEq

/-- The `resource` object of an event; for cancellation events it may carry
a `custom_id` correlation identifier (`none` = absent). -/
structure Resource where
  custom_id : Option String
  deriving DecidableEq

/-- A parsed webhook event body: an `event_type` tag and an optional
`resource` object (`none` = the JSON object has no resource field). -/
structure Event where
  event_type : Option String
  resource : Option Resource
  deriving DecidableEq

/-- Process configuration visible to the verification code: the
`PAYPAL_WEBHOOK_ID` environment variable. -/
structure Config where
  webhook_id : Option String
  deriving DecidableEq

/-- The `verificationData` object built by `verifyPayPalWebhook`
(source lines 72..80): the five transmission headers renamed to the
verification-API field names, the configured webhook id, and the parse of
the raw body as `webhook_event`. -/
structure VerificationData where
  auth_algo : Option String
  cert_url : Option String
  transmission_id : Option String
  transmission_sig : Option String
  transmission_time : Option String
  webhook_id : Option String
  webhook_event : Event
  deriving DecidableEq

/-- Builds the `verificationData` object from the headers, the configured
webhook id, and `JSON.parse(rawBody)`; `none` when `JSON.parse` throws. -/
def mkVerificationData (parse : String → Option Event) (headers : Headers)
    (webhookId : Option String) (rawBody : String) : Option VerificationData :=
  (parse rawBody).map (fun ev =>
    ⟨headers.paypal_auth_algo, headers.paypal_cert_url,
     headers.paypal_transmission_id, headers.paypal_transmission_sig,
     headers.paypal_transmission_time, webhookId, ev⟩)

/-- Outcomes of the two outbound calls made during one verification:
the token-endpoint fetch and the verify-webhook-signature fetch. -/
structure VerifyEnv where
  tokenFetch : FetchResult TokenResponseJson
  verifyFetch : FetchResult VerifyResponseJson
  deriving DecidableEq

/-- The try-block of `verifyPayPalWebhook` (source lines 69..98): obtain an
access token (its errors propagate), build `verificationData` (JSON.parse
of the raw body may throw), POST it to the verification endpoint, return
`false` on a non-ok status, otherwise compare the `verification_status`
field of the response JSON with the literal "SUCCESS". -/
def verifyPayPalWebhookTry (parse : String → Option Event) (cfg : Config)
    (env : VerifyEnv) (headers : Headers) (rawBody : String) :
    Except JsError Bool :=
  match (getPayPalAccessToken env.tokenFetch).1 with
  | Except.error e => Except.error e
  | Except.ok _accessToken =>
    match mkVerificationData parse headers cfg.webhook_id rawBody with
    | none => Except.error JsError.runtime
    | some _verificationData =>
      match env.verifyFetch with
      | FetchResult.netError => Except.error JsError.runtime
      | FetchResult.response status _bodyText json =>
        if statusOk status = false then
          Except.ok false
        else
          match json with
          | none => Except.error JsError.runtime
          | some verificationResult =>
            Except.ok (verificationResult.verification_status == some "SUCCESS")

/-- Embedding of `verifyPayPalWebhook` (source lines 68..104): the
try-block wrapped in the catch that logs the error and returns `false`. -/
def verifyPayPalWebhook (parse : String → Option Event) (cfg : Config)
    (env : VerifyEnv) (headers : Headers) (rawBody : String) : Bool :=
  match verifyPayPalWebhookTry parse cfg env headers rawBody with
  | Except.ok b => b
  | Except.error _ => false

/-- An inbound HTTP request: its headers and the exact body bytes the
sender transmitted (the buffer the express.json verify callback sees). -/
structure Req where
  headers : Headers
  bodyBytes : String
  deriving DecidableEq

/-- The express.json verify callback (source lines 109..113):
`req.rawBody = buf.toString()` — the retained raw body is the transmitted
body, untouched by structured parsing. -/
def capturedRawBody (req : Req) : String :=
  req.bodyBytes

/-- One technician document in the `technicians` collection: its
`validationStatus` field (`none` = field absent) and all its other fields,
which the webhook code never touches. -/
structure TechDoc where
  validationStatus : Option String
  rest : List (String × String)
  deriving DecidableEq

/-- The `technicians` collection of the backing store, as an association
list from document id to document. -/
abbrev Store := List (String × TechDoc)

/-- Document lookup by id. -/
def storeLookup (store : Store) (id : String) : Option TechDoc :=
  match store with
  | [] => none
  | (k, d) :: rest => if k = id then some d else storeLookup rest id

/-- Sets the single field `validationStatus` of a document to "pending",
leaving every other field unchanged (the effect of
`update` with a pending validationStatus on an existing document). -/
def setValidationPending (d : TechDoc) : TechDoc :=
  ⟨some "pending", d.rest⟩

/-- The store after a successful `update` keyed by `id`: only the document
at `id` changes, and only its `validationStatus` field. -/
def applyValidationPending : Store → String → Store
  | [], _ => []
  | (k, d) :: rest, id =>
    if k = id then (k, setValidationPending d) :: applyValidationPending rest id
    else (k, d) :: applyValidationPending rest id

/-- Semantics of the technicians-collection document update call:
fails on a transient I/O error (`ioFail`) or when the document does not
exist; otherwise commits the single-field write. -/
def firestoreUpdate (ioFail : Bool) (store : Store) (id : String) :
    Except Unit Store :=
  if ioFail then Except.error ()
  else
    match storeLookup store id with
    | none => Except.error ()
    | some _ => Except.ok (applyValidationPending store id)

/-- An HTTP response sent by the route handler. -/
structure HttpResponse where
  status : Nat
  body : String
  deriving DecidableEq

/-- Terminal state of one request: either exactly one response was sent, or
the async handler threw outside every try/catch and the request ended with
no response (unhandled promise rejection). -/
inductive Outcome where
  | responded (resp : HttpResponse)
  | crashed
  deriving DecidableEq

/-- One update call issued to the store. -/
structure UpdateCall where
  collection : String
  docId : String
  field : String
  value : String
  deriving DecidableEq

/-- Observable result of handling one request: the terminal state, the
final store, the store update calls issued, the raw-body argument passed to
`verifyPayPalWebhook` (`none` if verification was never invoked), and the
event object the router inspected (`none` if routing was never reached). -/
structure RunResult where
  outcome : Outcome
  store : Store
  updateCalls : List UpdateCall
  verifyCalledWith : Option String
  routedEvent : Option Event
  deriving DecidableEq

/-- Embedding of the POST /api/paypal-webhook route handler
(source lines 117..161), given `event` = `req.body` (the framework-parsed
body).  Verification is called on the captured raw body; a failed
verification answers 401; a cancellation event with a missing resource
object makes `event.resource.custom_id` throw a TypeError that no catch
intercepts (no response); a falsy custom_id answers 200 without touching
the store; otherwise one update call is issued and the handler answers 200
on success and 500 when the update throws. -/
def paypalWebhookHandler (parse : String → Option Event) (cfg : Config)
    (env : VerifyEnv) (req : Req) (event : Event) (store : Store)
    (ioFail : Bool) : RunResult :=
  if verifyPayPalWebhook parse cfg env req.headers (capturedRawBody req) = false then
    ⟨Outcome.responded ⟨401, "Verificación de Webhook fallida."⟩,
     store, [], some (capturedRawBody req), none⟩
  else
    if event.event_type = some "BILLING.SUBSCRIPTION.CANCELLED" then
      match event.resource with
      | none =>
        ⟨Outcome.crashed, store, [], some (capturedRawBody req), some event⟩
      | some r =>
        match r.custom_id with
        | none =>
          ⟨Outcome.responded ⟨200, "Evento recibido pero sin technicianId."⟩,
           store, [], some (capturedRawBody req), some event⟩
        | some technicianId =>
          if technicianId = "" then
            ⟨Outcome.responded ⟨200, "Evento recibido pero sin technicianId."⟩,
             store, [], some (capturedRawBody req), some event⟩
          else
            match firestoreUpdate ioFail store technicianId with
            | Except.error _ =>
              ⟨Outcome.responded
                 ⟨500, "Error interno del servidor al actualizar la base de datos."⟩,
               store, [⟨"technicians", technicianId, "validationStatus", "pending"⟩],
               some (capturedRawBody req), some event⟩
            | Except.ok store' =>
              ⟨Outcome.responded ⟨200, "Webhook recibido y procesado"⟩,
               store', [⟨"technicians", technicianId, "validationStatus", "pending"⟩],
               some (capturedRawBody req), some event⟩
    else
      ⟨Outcome.responded ⟨200, "Webhook recibido y procesado"⟩,
       store, [], some (capturedRawBody req), some event⟩

/-- One full request through the middleware stack: express.json parses the
body bytes (rejecting the request with 400 before the route handler runs
when parsing fails) and the route handler receives the parsed body together
with the captured raw body. -/
def handleRequest (parse : String → Option Event) (cfg : Config)
    (env : VerifyEnv) (req : Req) (store : Store) (ioFail : Bool) : RunResult :=
  match parse req.bodyBytes with
  | none => ⟨Outcome.responded ⟨400, "Bad Request"⟩, store, [], none, none⟩
  | some event => paypalWebhookHandler parse cfg env req event store ioFail

/-- An environment in which both outbound calls succeed and the provider
answers with a "SUCCESS" verification verdict. -/
def allGoodEnv : VerifyEnv :=
  ⟨FetchResult.response 200 "" (some ⟨some "tok"⟩),
   FetchResult.response 200 "" (some ⟨some "SUCCESS"⟩)⟩

/-- A parser recognising exactly one body: a cancellation event whose
JSON object has no resource field. -/
def cancelNoResourceParse : String → Option Event := fun s =>
  if s = "cancel-no-resource" then
    some ⟨some "BILLING.SUBSCRIPTION.CANCELLED", none⟩
  else none

/-- A parser recognising exactly one body: a cancellation event whose
resource field is null (in JavaScript, `null.custom_id` also throws). -/
def cancelNullResourceParse : String → Option Event := fun s =>
  if s = "cancel-null-resource" then
    some ⟨some "BILLING.SUBSCRIPTION.CANCELLED", none⟩
  else none

/-- Executable check that `needle` occurs as a contiguous run inside
`hay`. -/
def containsSub : List Char → List Char → Bool
  | [], needle => needle.isEmpty
  | c :: t, needle => needle.isPrefixOf (c :: t) || containsSub t needle

/-- Whether a JavaScript error value carries the string `s`: the only
payload of a thrown `Error` is its message, so `s` is carried exactly when
it occurs inside the message. -/
def errCarries (e : JsError) (s : String) : Bool :=
  match e with
  | JsError.thrown message => containsSub message.data s.data
  | JsError.runtime => false

theorem isPrefixOf_self (l : List Char) : l.isPrefixOf l = true := by
  induction l with
  | nil => rfl
  | cons c t ih => simp [List.isPrefixOf, ih]

theorem containsSub_append (l r : List Char) : containsSub (l ++ r) r = true := by
  induction l with
  | nil =>
    cases r with
    | nil => rfl
    | cons c t => simp [containsSub, isPrefixOf_self]
  | cons c t ih => simp [containsSub, ih]

theorem errCarries_thrown_append (pre t : String) :
    errCarries (JsError.thrown (pre ++ t)) t = true := by
  simp [errCarries, String.data_append, containsSub_append]

theorem storeLookup_applyValidationPending_self (store : Store) (id : String) :
    storeLookup (applyValidationPending store id) id =
      (storeLookup store id).map setValidationPending := by
  induction store with
  | nil => rfl
  | cons kv rest ih =>
    obtain ⟨k, d⟩ := kv
    by_cases h : k = id
    · subst h
      simp [applyValidationPending, storeLookup]
    · simp [applyValidationPending, storeLookup, h, ih]

theorem storeLookup_applyValidationPending_ne (store : Store) (id id' : String)
    (h : id' ≠ id) :
    storeLookup (applyValidationPending store id) id' = storeLookup store id' := by
  induction store with
  | nil => rfl
  | cons kv rest ih =>
    obtain ⟨k, d⟩ := kv
    by_cases hk : k = id
    · subst hk
      simp [applyValidationPending, storeLookup, Ne.symm h, ih]
    · by_cases hk2 : k = id'
      · subst hk2
        simp [applyValidationPending, storeLookup, hk]
      · simp [applyValidationPending, storeLookup, hk, hk2, ih]

theorem applyValidationPending_idem (store : Store) (id : String) :
    applyValidationPending (applyValidationPending store id) id =
      applyValidationPending store id := by
  induction store with
  | nil => rfl
  | cons kv rest ih =>
    obtain ⟨k, d⟩ := kv
    by_cases h : k = id
    · subst h
      simp [applyValidationPending, setValidationPending, ih]
    · simp [applyValidationPending, h, ih]

theorem paypalWebhookHandler_verifyCalledWith (parse : String → Option Event)
    (cfg : Config) (env : VerifyEnv) (req : Req) (event : Event)
    (store : Store) (ioFail : Bool) :
    (paypalWebhookHandler parse cfg env req event store ioFail).verifyCalledWith =
      some (capturedRawBody req) := by
  unfold paypalWebhookHandler
  split
  · rfl
  · split
    · split
      · rfl
      · split
        · rfl
        · split
          · rfl
          · split <;> rfl
    · rfl

theorem paypalWebhookHandler_routedEvent (parse : String → Option Event)
    (cfg : Config) (env : VerifyEnv) (req : Req) (event : Event)
    (store : Store) (ioFail : Bool)
    (hb : verifyPayPalWebhook parse cfg env req.headers (capturedRawBody req) = true) :
    (paypalWebhookHandler parse cfg env req event store ioFail).routedEvent =
      some event := by
  unfold paypalWebhookHandler
  rw [hb]
  simp only [Bool.true_eq_false, if_false]
  split
  · split
    · rfl
    · split
      · rfl
      · split
        · rfl
        · split <;> rfl
  · rfl

/-- Claim C8, counterexample: on the concrete non-success token response
with status 500 and body text "PERMISSION_DENIED", `getPayPalAccessToken`
fails with an error that carries the status but does NOT carry the response
body text — the body text is only written to the diagnostic log — so the
claim that the error carries both the status and the body text is false. -/
theorem C8_error_lacks_body_text :
    statusOk 500 = false ∧
    (getPayPalAccessToken (FetchResult.response 500 "PERMISSION_DENIED" none)).1 =
      Except.error (JsError.thrown "Failed to get PayPal access token. Status: 500") ∧
    errCarries (JsError.thrown "Failed to get PayPal access token. Status: 500")
      "PERMISSION_DENIED" = false ∧
    (getPayPalAccessToken (FetchResult.response 500 "PERMISSION_DENIED" none)).2 =
      ["Respuesta de error de PayPal: PERMISSION_DENIED"] := by
  refine ⟨rfl, rfl, by decide, by decide⟩

/-- Claim C8, amended: on any non-success HTTP status from the token
endpoint, `getPayPalAccessToken` fails with an error carrying the response
status; the response body text is written to the diagnostic log only, not
carried in the error.  On a success status it returns the `access_token`
field of the JSON response body. -/
theorem C8_token_exchange_error_handling :
    ∀ (status : Nat) (bodyText : String) (json : Option TokenResponseJson),
    (statusOk status = false →
      (getPayPalAccessToken (FetchResult.response status bodyText json)).1 =
        Except.error (JsError.thrown
          ("Failed to get PayPal access token. Status: " ++ toString status)) ∧
      errCarries (JsError.thrown
          ("Failed to get PayPal access token. Status: " ++ toString status))
        (toString status) = true ∧
      (getPayPalAccessToken (FetchResult.response status bodyText json)).2 =
        ["Respuesta de error de PayPal: " ++ bodyText]) ∧
    (∀ d, statusOk status = true → json = some d →
      (getPayPalAccessToken (FetchResult.response status bodyText json)).1 =
        Except.ok d.access_token) := by
  intro status bodyText json
  constructor
  · intro h
    refine ⟨?_, errCarries_thrown_append _ _, ?_⟩ <;>
      simp [getPayPalAccessToken, h]
  · intro d h hj
    subst hj
    simp [getPayPalAccessToken, h]

/-- Witness for C8: concrete evaluations discharging both hypotheses of the
amended theorem. -/
theorem C8_token_exchange_error_handling_witness :
    ((getPayPalAccessToken (FetchResult.response 503 "down" none)).1 =
       Except.error (JsError.thrown
         ("Failed to get PayPal access token. Status: " ++ toString 503)) ∧
     errCarries (JsError.thrown
         ("Failed to get PayPal access token. Status: " ++ toString 503))
       (toString 503) = true ∧
     (getPayPalAccessToken (FetchResult.response 503 "down" none)).2 =
       ["Respuesta de error de PayPal: " ++ "down"]) ∧
    (getPayPalAccessToken
        (FetchResult.response 200 "" (some ⟨some "A21AATok"⟩))).1 =
      Except.ok (some "A21AATok") :=
  ⟨(C8_token_exchange_error_handling 503 "down" none).1 (by decide),
   (C8_token_exchange_error_handling 200 "" (some ⟨some "A21AATok"⟩)).2
     ⟨some "A21AATok"⟩ (by decide) rfl⟩

/-- Claim C2: `verifyPayPalWebhook` is total and never throws to its
caller: every error raised inside its try-block (token exchange failure,
body parse failure, network error, malformed response) is caught and
collapsed to the boolean `false`, and `true` can only arise from the
try-block genuinely returning `true`. -/
theorem C2_verify_never_throws_fails_closed :
    ∀ (parse : String → Option Event) (cfg : Config) (env : VerifyEnv)
      (headers : Headers) (rawBody : String),
    (∀ e, verifyPayPalWebhookTry parse cfg env headers rawBody = Except.error e →
       verifyPayPalWebhook parse cfg env headers rawBody = false) ∧
    (verifyPayPalWebhook parse cfg env headers rawBody = true →
       verifyPayPalWebhookTry parse cfg env headers rawBody = Except.ok true) := by
  intro parse cfg env headers rawBody
  constructor
  · intro e he
    simp [verifyPayPalWebhook, he]
  · intro ht
    cases h : verifyPayPalWebhookTry parse cfg env headers rawBody with
    | error e => simp [verifyPayPalWebhook, h] at ht
    | ok b =>
      simp [verifyPayPalWebhook, h] at ht
      subst ht
      rfl

/-- Witness for C2: with a network error on the token exchange the
try-block raises, and the operation returns `false`. -/
theorem C2_verify_never_throws_fails_closed_witness :
    verifyPayPalWebhook (fun _ => none) ⟨none⟩
      ⟨FetchResult.netError, FetchResult.netError⟩
      ⟨none, none, none, none, none⟩ "" = false :=
  (C2_verify_never_throws_fails_closed (fun _ => none) ⟨none⟩
      ⟨FetchResult.netError, FetchResult.netError⟩
      ⟨none, none, none, none, none⟩ "").1 JsError.runtime rfl

/-- Claim C3: `verifyPayPalWebhook` returns `true` iff the token exchange
delivered a token, the raw body parsed, the verification endpoint call
completed with a success HTTP status and a parseable body, and the
`verification_status` field of that body equals the literal "SUCCESS"; any
other value of the field (including its absence) yields `false`. -/
theorem C3_verify_true_iff_success_status :
    ∀ (parse : String → Option Event) (cfg : Config) (env : VerifyEnv)
      (headers : Headers) (rawBody : String),
    verifyPayPalWebhook parse cfg env headers rawBody = true ↔
      ((∃ tok, (getPayPalAccessToken env.tokenFetch).1 = Except.ok tok) ∧
       (∃ ev, parse rawBody = some ev) ∧
       (∃ status bodyText r,
          env.verifyFetch = FetchResult.response status bodyText (some r) ∧
          statusOk status = true ∧
          r.verification_status = some "SUCCESS")) := by
  intro parse cfg env headers rawBody
  unfold verifyPayPalWebhook verifyPayPalWebhookTry
  cases htok : (getPayPalAccessToken env.tokenFetch).1 with
  | error e => simp [htok]
  | ok tok =>
    cases hp : parse rawBody with
    | none => simp [mkVerificationData, hp, htok]
    | some ev =>
      cases hv : env.verifyFetch with
      | netError => simp [mkVerificationData, hp, htok, hv]
      | response status bodyText json =>
        cases hs : statusOk status with
        | false =>
          simp [mkVerificationData, hp, htok, hv, hs]
          rintro x y z rfl rfl rfl hsx
          simp [hs] at hsx
        | true =>
          cases json with
          | none => simp [mkVerificationData, hp, htok, hv, hs]
          | some r =>
            simp [mkVerificationData, hp, htok, hv, hs, beq_iff_eq]
            constructor
            · intro hr
              exact ⟨status, bodyText, r, ⟨rfl, rfl, rfl⟩, hs, hr⟩
            · rintro ⟨s1, b1, r1, ⟨rfl, rfl, rfl⟩, h1, hr⟩
              exact hr

/-- Witness for C3: a concrete fully successful environment on which the
iff yields a `true` verdict. -/
theorem C3_verify_true_iff_success_status_witness :
    verifyPayPalWebhook (fun _ => some ⟨some "X", none⟩) ⟨some "WH-1"⟩
      ⟨FetchResult.response 200 "" (some ⟨some "tok"⟩),
       FetchResult.response 200 "" (some ⟨some "SUCCESS"⟩)⟩
      ⟨none, none, none, none, none⟩ "raw" = true :=
  (C3_verify_true_iff_success_status (fun _ => some ⟨some "X", none⟩) ⟨some "WH-1"⟩
      ⟨FetchResult.response 200 "" (some ⟨some "tok"⟩),
       FetchResult.response 200 "" (some ⟨some "SUCCESS"⟩)⟩
      ⟨none, none, none, none, none⟩ "raw").mpr
    ⟨⟨some "tok", rfl⟩, ⟨⟨some "X", none⟩, rfl⟩,
     ⟨200, "", ⟨some "SUCCESS"⟩, rfl, rfl, rfl⟩⟩

/-- Claim C4: evaluation of the route handler at the failing input — a
verified cancellation event whose body has no resource object.  Reading
`event.resource.custom_id` throws a TypeError outside every try/catch, so
the request terminates with NO HTTP response at all, contradicting the
claim that every request resolves to exactly one response with status 200,
401 or 500 (this input falls under its verified-and-ignored 200 case). -/
theorem C4_missing_resource_yields_no_response :
    (handleRequest cancelNoResourceParse ⟨some "WH-1"⟩ allGoodEnv
        ⟨⟨none, none, none, none, none⟩, "cancel-no-resource"⟩
        [("tech_1", ⟨some "approved", []⟩)] false).outcome = Outcome.crashed := by
  decide

/-- Claim C5: evaluation of the route handler at the failing input — a
verified cancellation payload of unexpected shape (no usable resource
object).  Handling neither produces any of the defined responses (200, 401,
500) nor any response at all: the async handler throws and the request is
left unanswered (an unhandled promise rejection), contradicting the claim
that request-scoped failures always resolve to a defined HTTP response. -/
theorem C5_malformed_payload_crashes_handler :
    (handleRequest cancelNullResourceParse ⟨some "WH-2"⟩ allGoodEnv
        ⟨⟨some "SHA256withRSA", none, none, none, none⟩, "cancel-null-resource"⟩
        [] false).outcome = Outcome.crashed ∧
    (handleRequest cancelNullResourceParse ⟨some "WH-2"⟩ allGoodEnv
        ⟨⟨some "SHA256withRSA", none, none, none, none⟩, "cancel-null-resource"⟩
        [] false).store = [] := by
  exact ⟨by decide, by decide⟩

/-- Claim C9: for every request that reaches the route handler, the raw
body retained by the express.json verify callback is byte-for-byte the
transmitted body, and the argument handed to signature verification is
exactly that raw body — in particular it is never any re-serialization of
the parsed body that differs from the transmitted bytes. -/
theorem C9_verification_uses_exact_transmitted_bytes :
    ∀ (parse : String → Option Event) (cfg : Config) (env : VerifyEnv)
      (req : Req) (store : Store) (ioFail : Bool) (event : Event),
    parse req.bodyBytes = some event →
    capturedRawBody req = req.bodyBytes ∧
    (handleRequest parse cfg env req store ioFail).verifyCalledWith =
      some req.bodyBytes ∧
    (∀ reserialize : Event → String, reserialize event ≠ req.bodyBytes →
      (handleRequest parse cfg env req store ioFail).verifyCalledWith ≠
        some (reserialize event)) := by
  intro parse cfg env req store ioFail event hp
  have hcall : (handleRequest parse cfg env req store ioFail).verifyCalledWith =
      some req.bodyBytes := by
    unfold handleRequest
    rw [hp]
    exact paypalWebhookHandler_verifyCalledWith parse cfg env req event store ioFail
  refine ⟨rfl, hcall, ?_⟩
  intro reserialize hne hcontra
  rw [hcall] at hcontra
  exact hne (Option.some.inj hcontra.symm)

/-- Witness for C9: a concrete request on which the verification argument
is the transmitted body. -/
theorem C9_verification_uses_exact_transmitted_bytes_witness :
    (handleRequest (fun _ => some ⟨some "PAYMENT.SALE.COMPLETED", none⟩)
        ⟨some "WH-9"⟩ allGoodEnv ⟨⟨none, none, none, none, none⟩, "rawbytes"⟩
        [] false).verifyCalledWith = some "rawbytes" :=
  (C9_verification_uses_exact_transmitted_bytes
      (fun _ => some ⟨some "PAYMENT.SALE.COMPLETED", none⟩)
      ⟨some "WH-9"⟩ allGoodEnv ⟨⟨none, none, none, none, none⟩, "rawbytes"⟩
      [] false ⟨some "PAYMENT.SALE.COMPLETED", none⟩ rfl).2.1

/-- Claim C10: for every request that reaches the routing step, the event
object the router inspects and the `webhook_event` object submitted to the
verification endpoint are both the parse of the same retained raw body
string, so the verified content is exactly the processed content. -/
theorem C10_routed_event_equals_verified_event :
    ∀ (parse : String → Option Event) (cfg : Config) (env : VerifyEnv)
      (req : Req) (store : Store) (ioFail : Bool) (event : Event),
    parse req.bodyBytes = some event →
    verifyPayPalWebhook parse cfg env req.headers (capturedRawBody req) = true →
    (handleRequest parse cfg env req store ioFail).routedEvent = some event ∧
    (mkVerificationData parse req.headers cfg.webhook_id
        (capturedRawBody req)).map VerificationData.webhook_event = some event := by
  intro parse cfg env req store ioFail event hp hb
  constructor
  · unfold handleRequest
    rw [hp]
    exact paypalWebhookHandler_routedEvent parse cfg env req event store ioFail hb
  · simp [mkVerificationData, capturedRawBody, hp]

/-- Witness for C10: a concrete verified request whose routed event and
submitted webhook_event coincide with the parse of the raw body. -/
theorem C10_routed_event_equals_verified_event_witness :
    (handleRequest (fun _ => some ⟨some "PAYMENT.SALE.COMPLETED", none⟩)
        ⟨some "WH-10"⟩ allGoodEnv ⟨⟨none, none, none, none, none⟩, "body10"⟩
        [] false).routedEvent = some ⟨some "PAYMENT.SALE.COMPLETED", none⟩ :=
  (C10_routed_event_equals_verified_event
      (fun _ => some ⟨some "PAYMENT.SALE.COMPLETED", none⟩)
      ⟨some "WH-10"⟩ allGoodEnv ⟨⟨none, none, none, none, none⟩, "body10"⟩
      [] false ⟨some "PAYMENT.SALE.COMPLETED", none⟩ rfl (by decide)).1

theorem paypalWebhookHandler_updateCalls_iff (parse : String → Option Event)
    (cfg : Config) (env : VerifyEnv) (req : Req) (event : Event)
    (store : Store) (ioFail : Bool) :
    ((paypalWebhookHandler parse cfg env req event store ioFail).updateCalls ≠ [] ↔
      (verifyPayPalWebhook parse cfg env req.headers (capturedRawBody req) = true ∧
       event.event_type = some "BILLING.SUBSCRIPTION.CANCELLED" ∧
       ∃ r id, event.resource = some r ∧ r.custom_id = some id ∧ id ≠ "")) ∧
    ((paypalWebhookHandler parse cfg env req event store ioFail).updateCalls = [] →
      (paypalWebhookHandler parse cfg env req event store ioFail).store = store) := by
  cases hb : verifyPayPalWebhook parse cfg env req.headers (capturedRawBody req) with
  | false =>
    have h4 : paypalWebhookHandler parse cfg env req event store ioFail =
        ⟨Outcome.responded ⟨401, "Verificación de Webhook fallida."⟩,
         store, [], some (capturedRawBody req), none⟩ := by
      unfold paypalWebhookHandler
      rw [if_pos hb]
    rw [h4]
    exact ⟨by simp [hb], fun _ => rfl⟩
  | true =>
    by_cases het : event.event_type = some "BILLING.SUBSCRIPTION.CANCELLED"
    · cases hr : event.resource with
      | none =>
        have h4 : paypalWebhookHandler parse cfg env req event store ioFail =
            ⟨Outcome.crashed, store, [], some (capturedRawBody req), some event⟩ := by
          simp [paypalWebhookHandler, hb, het, hr]
        rw [h4]
        refine ⟨by simp [hb, het, hr], fun _ => rfl⟩
      | some r =>
        cases hc : r.custom_id with
        | none =>
          have h4 : paypalWebhookHandler parse cfg env req event store ioFail =
              ⟨Outcome.responded ⟨200, "Evento recibido pero sin technicianId."⟩,
               store, [], some (capturedRawBody req), some event⟩ := by
            simp [paypalWebhookHandler, hb, het, hr, hc]
          rw [h4]
          refine ⟨by simp [hb, het, hr, hc], fun _ => rfl⟩
        | some id =>
          by_cases hid : id = ""
          · have h4 : paypalWebhookHandler parse cfg env req event store ioFail =
                ⟨Outcome.responded ⟨200, "Evento recibido pero sin technicianId."⟩,
                 store, [], some (capturedRawBody req), some event⟩ := by
              simp [paypalWebhookHandler, hb, het, hr, hc, hid]
            rw [h4]
            refine ⟨by simp [hb, het, hr, hc, hid], fun _ => rfl⟩
          · have h4 : paypalWebhookHandler parse cfg env req event store ioFail =
                (match firestoreUpdate ioFail store id with
                 | Except.error _ =>
                   ⟨Outcome.responded
                      ⟨500, "Error interno del servidor al actualizar la base de datos."⟩,
                    store, [⟨"technicians", id, "validationStatus", "pending"⟩],
                    some (capturedRawBody req), some event⟩
                 | Except.ok store' =>
                   ⟨Outcome.responded ⟨200, "Webhook recibido y procesado"⟩,
                    store', [⟨"technicians", id, "validationStatus", "pending"⟩],
                    some (capturedRawBody req), some event⟩) := by
              simp [paypalWebhookHandler, hb, het, hr, hc, hid]
            rw [h4]
            cases hu : firestoreUpdate ioFail store id with
            | error e =>
              refine ⟨?_, ?_⟩
              · simp only [ne_eq]
                constructor
                · intro _
                  exact ⟨by trivial, het, r, id, by trivial, by trivial, hid⟩
                · intro _
                  simp
              · intro hcontra
                simp at hcontra
            | ok store' =>
              refine ⟨?_, ?_⟩
              · simp only [ne_eq]
                constructor
                · intro _
                  exact ⟨by trivial, het, r, id, by trivial, by trivial, hid⟩
                · intro _
                  simp
              · intro hcontra
                simp at hcontra
    · have h4 : paypalWebhookHandler parse cfg env req event store ioFail =
          ⟨Outcome.responded ⟨200, "Webhook recibido y procesado"⟩,
           store, [], some (capturedRawBody req), some event⟩ := by
        simp [paypalWebhookHandler, hb, het]
      rw [h4]
      refine ⟨by simp [hb, het], fun _ => rfl⟩

/-- Claim C1: for every inbound webhook request, a mutation is applied to
the record store — an update call is issued — if and only if (a) signature
verification returned true, (b) the event type equals the cancellation tag,
and (c) the event resource carries a non-empty custom_id; on every other
path no update call is issued and the store is left exactly as it was. -/
theorem C1_store_mutation_iff_verified_cancellation :
    ∀ (parse : String → Option Event) (cfg : Config) (env : VerifyEnv)
      (req : Req) (store : Store) (ioFail : Bool),
    ((handleRequest parse cfg env req store ioFail).updateCalls ≠ [] ↔
      (∃ event r id,
        parse req.bodyBytes = some event ∧
        verifyPayPalWebhook parse cfg env req.headers (capturedRawBody req) = true ∧
        event.event_type = some "BILLING.SUBSCRIPTION.CANCELLED" ∧
        event.resource = some r ∧ r.custom_id = some id ∧ id ≠ "")) ∧
    ((handleRequest parse cfg env req store ioFail).updateCalls = [] →
      (handleRequest parse cfg env req store ioFail).store = store) := by
  intro parse cfg env req store ioFail
  cases hp : parse req.bodyBytes with
  | none =>
    have h0 : handleRequest parse cfg env req store ioFail =
        ⟨Outcome.responded ⟨400, "Bad Request"⟩, store, [], none, none⟩ := by
      unfold handleRequest
      rw [hp]
    rw [h0]
    refine ⟨by simp [hp], fun _ => rfl⟩
  | some event =>
    have h0 : handleRequest parse cfg env req store ioFail =
        paypalWebhookHandler parse cfg env req event store ioFail := by
      unfold handleRequest
      rw [hp]
    rw [h0]
    obtain ⟨hiff, hframe⟩ :=
      paypalWebhookHandler_updateCalls_iff parse cfg env req event store ioFail
    refine ⟨?_, hframe⟩
    rw [hiff]
    constructor
    · rintro ⟨hb, het, r, id, hr, hc, hid⟩
      exact ⟨event, r, id, rfl, hb, het, hr, hc, hid⟩
    · rintro ⟨event', r, id, hp', hb, het, hr, hc, hid⟩
      obtain rfl := Option.some.inj hp'
      exact ⟨hb, het, r, id, hr, hc, hid⟩

/-- Witness for C1: a concrete non-cancellation verified request issues no
update call and leaves the store untouched. -/
theorem C1_store_mutation_iff_verified_cancellation_witness :
    (handleRequest (fun _ => some ⟨some "PAYMENT.SALE.COMPLETED", none⟩)
        ⟨some "WH-1c"⟩ allGoodEnv ⟨⟨none, none, none, none, none⟩, "body1"⟩
        [("tech_1", ⟨some "approved", []⟩)] false).store =
      [("tech_1", ⟨some "approved", []⟩)] :=
  (C1_store_mutation_iff_verified_cancellation
      (fun _ => some ⟨some "PAYMENT.SALE.COMPLETED", none⟩)
      ⟨some "WH-1c"⟩ allGoodEnv ⟨⟨none, none, none, none, none⟩, "body1"⟩
      [("tech_1", ⟨some "approved", []⟩)] false).2 (by decide)

/-- Claim C6: on a verified cancellation event carrying a non-empty
custom_id, exactly one update call is issued to the store, on collection
"technicians", keyed by that identifier, writing only the single field
validationStatus to "pending"; the updated document keeps all its other
fields, every other document is untouched, and a failed update leaves the
store exactly as it was. -/
theorem C6_single_field_update_frame :
    ∀ (parse : String → Option Event) (cfg : Config) (env : VerifyEnv)
      (req : Req) (store : Store) (ioFail : Bool) (event : Event)
      (r : Resource) (id : String),
    parse req.bodyBytes = some event →
    verifyPayPalWebhook parse cfg env req.headers (capturedRawBody req) = true →
    event.event_type = some "BILLING.SUBSCRIPTION.CANCELLED" →
    event.resource = some r →
    r.custom_id = some id →
    id ≠ "" →
    (handleRequest parse cfg env req store ioFail).updateCalls =
      [⟨"technicians", id, "validationStatus", "pending"⟩] ∧
    (∀ d, ioFail = false → storeLookup store id = some d →
      storeLookup (handleRequest parse cfg env req store ioFail).store id =
        some ⟨some "pending", d.rest⟩) ∧
    (∀ id', id' ≠ id →
      storeLookup (handleRequest parse cfg env req store ioFail).store id' =
        storeLookup store id') ∧
    (ioFail = true ∨ storeLookup store id = none →
      (handleRequest parse cfg env req store ioFail).store = store) := by
  intro parse cfg env req store ioFail event r id hp hb het hr hc hid
  have h0 : handleRequest parse cfg env req store ioFail =
      paypalWebhookHandler parse cfg env req event store ioFail := by
    unfold handleRequest
    rw [hp]
  have h4 : paypalWebhookHandler parse cfg env req event store ioFail =
      (match firestoreUpdate ioFail store id with
       | Except.error _ =>
         ⟨Outcome.responded
            ⟨500, "Error interno del servidor al actualizar la base de datos."⟩,
          store, [⟨"technicians", id, "validationStatus", "pending"⟩],
          some (capturedRawBody req), some event⟩
       | Except.ok store' =>
         ⟨Outcome.responded ⟨200, "Webhook recibido y procesado"⟩,
          store', [⟨"technicians", id, "validationStatus", "pending"⟩],
          some (capturedRawBody req), some event⟩) := by
    simp [paypalWebhookHandler, hb, het, hr, hc, hid]
  rw [h0, h4]
  cases ioFail with
  | true =>
    have hu : firestoreUpdate true store id = Except.error () := by
      simp [firestoreUpdate]
    rw [hu]
    refine ⟨rfl, ?_, ?_, ?_⟩
    · intro d hdf
      exact absurd hdf (by decide)
    · intro id' _
      rfl
    · intro _
      rfl
  | false =>
    cases hl : storeLookup store id with
    | none =>
      have hu : firestoreUpdate false store id = Except.error () := by
        simp [firestoreUpdate, hl]
      rw [hu]
      refine ⟨rfl, ?_, ?_, ?_⟩
      · intro d _ hd
        simp at hd
      · intro id' _
        rfl
      · intro _
        rfl
    | some d0 =>
      have hu : firestoreUpdate false store id =
          Except.ok (applyValidationPending store id) := by
        simp [firestoreUpdate, hl]
      rw [hu]
      refine ⟨rfl, ?_, ?_, ?_⟩
      · intro d _ hd
        obtain rfl := Option.some.inj hd
        rw [storeLookup_applyValidationPending_self, hl]
        rfl
      · intro id' hne
        exact storeLookup_applyValidationPending_ne store id id' hne
      · rintro (h | h)
        · exact absurd h (by decide)
        · simp at h

/-- Witness for C6: a concrete verified cancellation for "tech_1" updates
exactly that document to a pending validationStatus and keeps its other
fields and the other document intact. -/
theorem C6_single_field_update_frame_witness :
    (handleRequest
        (fun _ => some ⟨some "BILLING.SUBSCRIPTION.CANCELLED", some ⟨some "tech_1"⟩⟩)
        ⟨some "WH-6"⟩ allGoodEnv ⟨⟨none, none, none, none, none⟩, "body6"⟩
        [("tech_1", ⟨some "approved", [("name", "Ana")]⟩),
         ("tech_2", ⟨some "approved", []⟩)] false).updateCalls =
      [⟨"technicians", "tech_1", "validationStatus", "pending"⟩] ∧
    storeLookup
      (handleRequest
        (fun _ => some ⟨some "BILLING.SUBSCRIPTION.CANCELLED", some ⟨some "tech_1"⟩⟩)
        ⟨some "WH-6"⟩ allGoodEnv ⟨⟨none, none, none, none, none⟩, "body6"⟩
        [("tech_1", ⟨some "approved", [("name", "Ana")]⟩),
         ("tech_2", ⟨some "approved", []⟩)] false).store "tech_1" =
      some ⟨some "pending", [("name", "Ana")]⟩ ∧
    storeLookup
      (handleRequest
        (fun _ => some ⟨some "BILLING.SUBSCRIPTION.CANCELLED", some ⟨some "tech_1"⟩⟩)
        ⟨some "WH-6"⟩ allGoodEnv ⟨⟨none, none, none, none, none⟩, "body6"⟩
        [("tech_1", ⟨some "approved", [("name", "Ana")]⟩),
         ("tech_2", ⟨some "approved", []⟩)] false).store "tech_2" =
      some ⟨some "approved", []⟩ := by
  obtain ⟨hcalls, hself, hother, _⟩ :=
    C6_single_field_update_frame
      (fun _ => some ⟨some "BILLING.SUBSCRIPTION.CANCELLED", some ⟨some "tech_1"⟩⟩)
      ⟨some "WH-6"⟩ allGoodEnv ⟨⟨none, none, none, none, none⟩, "body6"⟩
      [("tech_1", ⟨some "approved", [("name", "Ana")]⟩),
       ("tech_2", ⟨some "approved", []⟩)] false
      ⟨some "BILLING.SUBSCRIPTION.CANCELLED", some ⟨some "tech_1"⟩⟩
      ⟨some "tech_1"⟩ "tech_1" rfl (by decide) rfl rfl rfl (by decide)
  exact ⟨hcalls,
    hself ⟨some "approved", [("name", "Ana")]⟩ rfl (by decide),
    hother "tech_2" (by decide)⟩

/-- Claim C7: delivering the same event twice, with identical verification
and store-failure outcomes, leaves the store in the same final state as
delivering it once — the applied mutation writes an absolute value, so the
second identical delivery changes nothing. -/
theorem C7_redelivery_idempotent :
    ∀ (parse : String → Option Event) (cfg : Config) (env : VerifyEnv)
      (req : Req) (store : Store) (ioFail : Bool),
    (handleRequest parse cfg env req
        ((handleRequest parse cfg env req store ioFail).store) ioFail).store =
      (handleRequest parse cfg env req store ioFail).store := by
  intro parse cfg env req store ioFail
  cases hp : parse req.bodyBytes with
  | none =>
    have h0 : ∀ s : Store, handleRequest parse cfg env req s ioFail =
        ⟨Outcome.responded ⟨400, "Bad Request"⟩, s, [], none, none⟩ := by
      intro s
      unfold handleRequest
      rw [hp]
    rw [h0, h0]
  | some event =>
    have h0 : ∀ s : Store, handleRequest parse cfg env req s ioFail =
        paypalWebhookHandler parse cfg env req event s ioFail := by
      intro s
      unfold handleRequest
      rw [hp]
    rw [h0, h0]
    cases hb : verifyPayPalWebhook parse cfg env req.headers (capturedRawBody req) with
    | false =>
      have h4 : ∀ s : Store, paypalWebhookHandler parse cfg env req event s ioFail =
          ⟨Outcome.responded ⟨401, "Verificación de Webhook fallida."⟩,
           s, [], some (capturedRawBody req), none⟩ := by
        intro s
        unfold paypalWebhookHandler
        rw [if_pos hb]
      rw [h4, h4]
    | true =>
      by_cases het : event.event_type = some "BILLING.SUBSCRIPTION.CANCELLED"
      · cases hr : event.resource with
        | none =>
          have h4 : ∀ s : Store, paypalWebhookHandler parse cfg env req event s ioFail =
              ⟨Outcome.crashed, s, [], some (capturedRawBody req), some event⟩ := by
            intro s
            simp [paypalWebhookHandler, hb, het, hr]
          rw [h4, h4]
        | some r =>
          cases hc : r.custom_id with
          | none =>
            have h4 : ∀ s : Store, paypalWebhookHandler parse cfg env req event s ioFail =
                ⟨Outcome.responded ⟨200, "Evento recibido pero sin technicianId."⟩,
                 s, [], some (capturedRawBody req), some event⟩ := by
              intro s
              simp [paypalWebhookHandler, hb, het, hr, hc]
            rw [h4, h4]
          | some id =>
            by_cases hid : id = ""
            · have h4 : ∀ s : Store, paypalWebhookHandler parse cfg env req event s ioFail =
                  ⟨Outcome.responded ⟨200, "Evento recibido pero sin technicianId."⟩,
                   s, [], some (capturedRawBody req), some event⟩ := by
                intro s
                simp [paypalWebhookHandler, hb, het, hr, hc, hid]
              rw [h4, h4]
            · have h4 : ∀ s : Store, paypalWebhookHandler parse cfg env req event s ioFail =
                  (match firestoreUpdate ioFail s id with
                   | Except.error _ =>
                     ⟨Outcome.responded
                        ⟨500, "Error interno del servidor al actualizar la base de datos."⟩,
                      s, [⟨"technicians", id, "validationStatus", "pending"⟩],
                      some (capturedRawBody req), some event⟩
                   | Except.ok store' =>
                     ⟨Outcome.responded ⟨200, "Webhook recibido y procesado"⟩,
                      store', [⟨"technicians", id, "validationStatus", "pending"⟩],
                      some (capturedRawBody req), some event⟩) := by
                intro s
                simp [paypalWebhookHandler, hb, het, hr, hc, hid]
              rw [h4, h4]
              cases ioFail with
              | true =>
                have hu : ∀ s : Store, firestoreUpdate true s id = Except.error () := by
                  intro s
                  simp [firestoreUpdate]
                rw [hu, hu]
              | false =>
                cases hl : storeLookup store id with
                | none =>
                  have hu : firestoreUpdate false store id = Except.error () := by
                    simp [firestoreUpdate, hl]
                  rw [hu]
                  rw [hu]
                | some d =>
                  have hu1 : firestoreUpdate false store id =
                      Except.ok (applyValidationPending store id) := by
                    simp [firestoreUpdate, hl]
                  rw [hu1]
                  have hu2 : firestoreUpdate false (applyValidationPending store id) id =
                      Except.ok (applyValidationPending (applyValidationPending store id) id) := by
                    simp [firestoreUpdate, storeLookup_applyValidationPending_self, hl]
                  simp only []
                  rw [hu2]
                  simp [applyValidationPending_idem]
      · have h4 : ∀ s : Store, paypalWebhookHandler parse cfg env req event s ioFail =
            ⟨Outcome.responded ⟨200, "Webhook recibido y procesado"⟩,
             s, [], some (capturedRawBody req), some event⟩ := by
          intro s
          simp [paypalWebhookHandler, hb, het]
        rw [h4, h4]

end TCWebhook
